import Mathlib

/-!
# Verification of the curia-irc-client identity-bridge and iframe-integration code

Shallow embedding of:
* `public/iframe-integration.js` — the postMessage bridge run inside The Lounge iframe;
* the Redirect Builder functions `buildChatUrl` (docs/identity-bridge-implementation-plan.md)
  and `buildLoungeUrl` (identity-bridge integration-points document);
* the provisioning endpoint `provisionIrcUserHandler` with `generateIrcUsername`,
  `hashIrcPassword` and `upsertSojuUser` (IRC user-provision endpoint specification,
  and the earlier integration-points draft of `upsertSojuUser`);
* the Soju HTTP auth callback handler `/api/irc-auth`
  (docs/identity-bridge-implementation-plan.md).

Side effects are made explicit: DOM mutation and postMessage become action lists,
the databases become explicit state threaded through the handlers, and bcrypt is
modelled symbolically (a stored value is either the raw plaintext string, as the
code writes it, or a salted digest determined by its salt and its preimage).
-/

namespace IframeIntegration

/-- The origin allow-list hard-coded in the `message` event listener of
`public/iframe-integration.js`. -/
def allowedOrigins : List String :=
  ["https://curia.network", "https://www.curia.network",
   "http://localhost:3000", "http://localhost:3001"]

/-- The fields of `event.data` the script reads.  A `none` field models an
absent (or falsy) property, matching the truthiness guards in the script. -/
structure EventData where
  type : Option String
  nick : Option String
  password : Option String
  realname : Option String
  theme : Option String
deriving DecidableEq, Repr

/-- A cross-document message as seen by the listener: its `origin` and its
`data` payload (`none` when `data` is null/undefined, so that the
`if (data && ...)` guards are modelled). -/
structure MessageEvent where
  origin : String
  data : Option EventData
deriving DecidableEq, Repr

/-- What the body of the `message` listener does after the origin check:
warn and bail out, dispatch to `handleIrcLogin`, or dispatch to
`handleThemeChange`. -/
inductive HandlerStep where
  | warnUnauthorized (origin : String)
  | callIrcLogin (d : EventData)
  | callThemeChange (d : EventData)
deriving DecidableEq, Repr

/-- The `message` event listener of `iframe-integration.js`: messages from an
origin outside `allowedOrigins` produce only the `console.warn` and an early
return; otherwise the listener dispatches on `data.type`. -/
def messageListener (event : MessageEvent) : List HandlerStep :=
  if event.origin ∈ allowedOrigins then
    match event.data with
    | some d =>
      if d.type = some ("irc-login") then [.callIrcLogin d]
      else if d.type = some ("irc-theme") then [.callThemeChange d]
      else []
    | none => []
  else [.warnUnauthorized event.origin]

/-- The login-form fields the script queries: `some v` is an input currently
holding value `v`, `none` an input absent from the DOM. -/
structure DomState where
  nickField : Option String
  passwordField : Option String
  realnameField : Option String
  connectFormPresent : Bool
deriving DecidableEq, Repr

/-- DOM mutations / submissions `handleIrcLogin` can perform. -/
inductive DomAction where
  | setNick (v : String)
  | setPassword (v : String)
  | setRealname (v : String)
  | submitConnectForm
deriving DecidableEq, Repr

/-- `handleIrcLogin` on the polling tick where the form check runs: if the
nick input, password input and connect form are all present it fills the
truthy fields and submits the form, otherwise that tick does nothing. -/
def handleIrcLogin (d : EventData) (dom : DomState) : List DomAction :=
  if dom.nickField.isSome && dom.passwordField.isSome && dom.connectFormPresent then
    (match d.nick with | some n => [.setNick n] | none => []) ++
    (match d.password with | some p => [.setPassword p] | none => []) ++
    (match d.realname with
     | some r => if dom.realnameField.isSome then [.setRealname r] else []
     | none => []) ++
    [.submitConnectForm]
  else []

/-- `handleThemeChange` only logs; it touches no DOM form field. -/
def handleThemeChange (_d : EventData) (_dom : DomState) : List DomAction := []

/-- All DOM actions the listener triggers for one inbound message: the
dispatch steps of `messageListener` elaborated into their DOM effects. -/
def listenerDomActions (event : MessageEvent) (dom : DomState) : List DomAction :=
  ((messageListener event).map (fun step =>
    match step with
    | .callIrcLogin d => handleIrcLogin d dom
    | .callThemeChange d => handleThemeChange d dom
    | .warnUnauthorized _ => [])).flatten

/-- Initialization effects of the IIFE in `iframe-integration.js`, in source
order: the load log, the `message` listener registration, the console patch of
`setupConnectionMonitoring`, and the delayed ready signal. -/
inductive InitEffect where
  | logLoaded
  | registerMessageListener
  | patchConsoleLog
  | scheduleReadySignal
deriving DecidableEq, Repr

/-- The IIFE body: `if (window.self === window.top) return;` guards everything,
so in a top-level window nothing at all is initialized. -/
def iframeIntegrationInit (selfIsTop : Bool) : List InitEffect :=
  if selfIsTop then []
  else [.logLoaded, .registerMessageListener, .patchConsoleLog, .scheduleReadySignal]

/-- A message posted to the parent window by `notifyParent`. -/
structure OutboundMessage where
  type : String
  eventType : String
  payload : String
  targetOrigin : String
deriving DecidableEq, Repr

/-- `notifyParent(eventType, data)`: posts `{type:'irc-event', eventType, data}`
to the parent with wildcard target origin, guarded by
`window.parent && window.parent !== window`. -/
def notifyParent (hasDistinctParent : Bool) (eventType : String) (payload : String) :
    List OutboundMessage :=
  if hasDistinctParent then [⟨"irc-event", eventType, payload, "*"⟩] else []

/-- Does `pat` occur as a contiguous run inside `l`? -/
def charsContain (pat : List Char) : List Char → Bool
  | [] => pat.isEmpty
  | c :: rest => pat.isPrefixOf (c :: rest) || charsContain pat rest

/-- `s.includes(pat)` of JavaScript strings. -/
def containsSub (s pat : String) : Bool :=
  charsContain pat.toList s.toList

/-- The patched `console.log` of `setupConnectionMonitoring`: forwards
connection-related log lines to the parent via `notifyParent`. -/
def monitoredLogMessage (hasDistinctParent : Bool) (message : String) :
    List OutboundMessage :=
  if containsSub message ("Connected to") then
    notifyParent hasDistinctParent ("connected") message
  else if containsSub message ("Disconnected from") then
    notifyParent hasDistinctParent ("disconnected") message
  else if containsSub message ("Joined channel") then
    notifyParent hasDistinctParent ("joined") message
  else []

/-- Every message the script posts during a run: the delayed `ready` signal
plus whatever the patched `console.log` forwards for each logged line.
`notifyParent` is the script's only `postMessage` call site. -/
def scriptOutbound (hasDistinctParent : Bool) (urlInfo : String)
    (logMessages : List String) : List OutboundMessage :=
  notifyParent hasDistinctParent ("ready") urlInfo ++
    (logMessages.map (monitoredLogMessage hasDistinctParent)).flatten

end IframeIntegration

namespace RedirectBuilder

/-- Upper-case hexadecimal digit, as produced by `URLSearchParams` percent-encoding. -/
def hexDigit (n : Nat) : Char :=
  if n < 10 then Char.ofNat (48 + n) else Char.ofNat (55 + n)

/-- Characters the `application/x-www-form-urlencoded` serializer leaves
untouched: ASCII alphanumerics and `*`, `-`, `.`, `_`. -/
def isFormSafe (c : Char) : Bool :=
  c.isAlphanum || c = '*' || c = '-' || c = '.' || c = '_'

/-- Percent-encoding of one ASCII character. -/
def percentEncodeChar (c : Char) : String :=
  String.mk ['%', hexDigit (c.toNat / 16), hexDigit (c.toNat % 16)]

/-- The `application/x-www-form-urlencoded` serialization of a value, as
`URLSearchParams` performs on every `searchParams.set` value (ASCII inputs):
safe characters kept, space becomes `+`, the rest percent-encoded. -/
def formUrlEncode (s : String) : String :=
  String.join (s.toList.map (fun c =>
    if isFormSafe c then String.singleton c
    else if c = ' ' then ("+")
    else percentEncodeChar c))

/-- `buildChatUrl` from the identity-bridge implementation plan: builds the
auto-login deep link with `url.searchParams.set`, in source order, the `join`
parameter present only for a nonempty channel list, serialized by the URL
class with form-urlencoding of the values. -/
def buildChatUrl (baseUrl username password nick realname : String)
    (channels : List String) : String :=
  let ps : List (String × String) :=
    [("autologin", ""), ("user", username), ("al-password", password),
     ("autoconnect", ""), ("nick", nick), ("username", username),
     ("realname", realname)]
    ++ (if channels.length > 0 then
          [("join", String.intercalate ("," ) channels)] else [])
    ++ [("nofocus", ""), ("lockchannel", "")]
  baseUrl ++ "?" ++
    String.intercalate ("&") (ps.map (fun p => p.1 ++ "=" ++ formUrlEncode p.2))

/-- The channel-name sanitizer of `buildLoungeUrl`:
`communityId.toLowerCase().replace(/[^a-z0-9]/g, '-')`. -/
def sanitizeChannelName (communityId : String) : String :=
  String.mk (communityId.toList.map (fun c =>
    let lc := c.toLower
    if lc.isLower || lc.isDigit then lc else '-'))

/-- `buildLoungeUrl` from the integration-points document: a template string
interpolating the three arguments verbatim (no URL-encoding), with nick,
username and realname all taken from `ircUsername`. -/
def buildLoungeUrl (baseUrl ircUsername ircPassword communityId : String) : String :=
  let channelName := sanitizeChannelName communityId
  baseUrl ++ "?autologin&user=" ++ ircUsername ++ "&al-password=" ++ ircPassword ++
    "&autoconnect&nick=" ++ ircUsername ++ "&username=" ++ ircUsername ++
    "/commonground&realname=" ++ ircUsername ++ "&join=%23" ++ channelName ++
    "&lockchannel&nofocus"

end RedirectBuilder

namespace Provisioning

/-- A value held by a password column.  bcrypt is modelled symbolically:
`plain s` is the raw string `s` written unchanged, `hashed salt s` is the
salted bcrypt digest of `s` under `salt` (the constructor's injectivity models
the absence of collisions; the preimage is not extractable by any operation
defined here). -/
inductive PasswordValue where
  | plain (secret : String)
  | hashed (salt : Nat) (secret : String)
deriving DecidableEq, Repr

/-- Is the stored value a bcrypt digest (as opposed to a raw plaintext)? -/
def PasswordValue.isHashed : PasswordValue → Bool
  | .plain _ => false
  | .hashed _ _ => true

/-- `hashIrcPassword` of the endpoint specification: `bcrypt.hash(password, 10)`
with `salt` the random salt bcrypt draws internally. -/
def hashIrcPassword (salt : Nat) (password : String) : PasswordValue :=
  .hashed salt password

/-- `bcrypt.compare(password, stored)`: true exactly when `stored` is a digest
whose preimage is `password`; a malformed (plaintext) stored value never
compares true. -/
def verifyPassword (password : String) (stored : PasswordValue) : Bool :=
  match stored with
  | .hashed _ s => password = s
  | .plain _ => false

/-- A row of the Soju `"User"` table (id, username, password, nick, realname;
the admin/enabled flags are constants in all code paths and omitted). -/
structure SojuUser where
  id : Nat
  username : String
  password : PasswordValue
  nick : String
  realname : String
deriving DecidableEq, Repr

/-- A row of the Soju `"Network"` table. -/
structure Network where
  name : String
  userId : Nat
  addr : String
  nick : String
  username : String
deriving DecidableEq, Repr

/-- The Soju database: the `"User"` and `"Network"` tables plus the sequence
backing `User.id`. -/
structure SojuDb where
  users : List SojuUser
  networks : List Network
  nextId : Nat
deriving DecidableEq, Repr

/-- `SELECT id FROM "User" WHERE username = $1` (first matching row). -/
def findSojuUser (db : SojuDb) (ircUsername : String) : Option SojuUser :=
  db.users.find? (fun u => u.username = ircUsername)

/-- `UPDATE "User" SET password = $2, nick = $3, realname = $4 WHERE id = $1`
applied to one row. -/
def applyUserUpdate (userId : Nat) (password : PasswordValue)
    (nickname realname : String) (v : SojuUser) : SojuUser :=
  if v.id = userId then
    { v with password := password, nick := nickname, realname := realname }
  else v

/-- `INSERT INTO "Network" ... ON CONFLICT (name, "user") DO UPDATE SET
nick = EXCLUDED.nick, username = EXCLUDED.username` for the `commonground`
network, as in the endpoint specification's `upsertSojuUser`. -/
def upsertNetwork (nets : List Network) (userId : Nat)
    (nickname ircUsername : String) : List Network :=
  if nets.any (fun n => n.name = "commonground" && n.userId = userId) then
    nets.map (fun n =>
      if n.name = "commonground" && n.userId = userId then
        { n with nick := nickname, username := ircUsername }
      else n)
  else
    nets ++ [⟨"commonground", userId, "irc+insecure://ergo:6667",
             nickname, ircUsername⟩]

/-- `upsertSojuUser` of the IRC user-provision endpoint specification: look the
username up; update the row's password/nick/realname if found, insert a fresh
row otherwise; then upsert the `commonground` network for that user id. -/
def upsertSojuUser (db : SojuDb) (ircUsername : String)
    (hashedPassword : PasswordValue) (nickname realname : String) :
    SojuDb × Nat :=
  match findSojuUser db ircUsername with
  | some u =>
      let users := db.users.map (applyUserUpdate u.id hashedPassword nickname realname)
      let networks := upsertNetwork db.networks u.id nickname ircUsername
      ({ db with users := users, networks := networks }, u.id)
  | none =>
      let userId := db.nextId
      let users := db.users ++ [⟨userId, ircUsername, hashedPassword, nickname, realname⟩]
      let networks := upsertNetwork db.networks userId nickname ircUsername
      ({ users := users, networks := networks, nextId := db.nextId + 1 }, userId)

/-- `INSERT INTO "Network" ... ON CONFLICT DO NOTHING` of the earlier
integration-points draft (insert-if-absent, no update). -/
def insertNetworkIfAbsent (nets : List Network) (userId : Nat)
    (nickname ircUsername : String) : List Network :=
  if nets.any (fun n => n.name = "commonground" && n.userId = userId) then nets
  else
    nets ++ [⟨"commonground", userId, "irc+insecure://ergo:6667",
             nickname, ircUsername⟩]

/-- `upsertSojuUser` of the earlier integration-points draft: takes the raw
`ircPassword` and writes it to the `password` column unchanged in both the
update and the insert branch; the network insert only happens on create. -/
def upsertSojuUserDraft (db : SojuDb) (ircUsername ircPassword : String)
    (nickname realname : String) : SojuDb × Nat :=
  match findSojuUser db ircUsername with
  | some u =>
      let users := db.users.map
        (applyUserUpdate u.id (.plain ircPassword) nickname realname)
      ({ db with users := users }, u.id)
  | none =>
      let userId := db.nextId
      let users := db.users ++
        [⟨userId, ircUsername, .plain ircPassword, nickname, realname⟩]
      let networks := insertNetworkIfAbsent db.networks userId nickname ircUsername
      ({ users := users, networks := networks, nextId := db.nextId + 1 }, userId)

/-- `generateIrcUsername(name, userId)`: strip non-alphanumerics from the name,
lower-case it, append `_` and the last four characters of the user id, truncate
to the 32-character IRC username limit. -/
def generateIrcUsername (name userId : String) : String :=
  let cleanName := (name.toList.filter Char.isAlphanum).map Char.toLower
  let userSuffix := userId.toList.drop (userId.toList.length - 4)
  String.mk ((cleanName ++ '_' :: userSuffix).take 32)

/-- The JWT payload fields `provisionIrcUserHandler` reads (`req.user`). -/
structure AuthUser where
  sub : String
  name : Option String
deriving DecidableEq, Repr

/-- Result of one provisioning request: the HTTP status, the returned
credentials (present only on success), and the Soju database state afterwards. -/
structure ProvisionResult where
  status : Nat
  ircUsername : Option String
  ircPassword : Option String
  db : SojuDb
deriving DecidableEq, Repr

/-- `provisionIrcUserHandler` of the endpoint specification.  `user = none`
models a request with no authenticated caller (`req.user` absent);
`communityId = none` a body without the required field.  `freshSecret` is the
output of `generateSecurePassword()` for this call and `salt` the bcrypt salt —
both draws from the external entropy source, passed in explicitly. -/
def provisionIrcUserHandler (db : SojuDb) (user : Option AuthUser)
    (communityId : Option String) (freshSecret : String) (salt : Nat) :
    ProvisionResult :=
  match user with
  | none => ⟨401, none, none, db⟩
  | some u =>
    match communityId with
    | none => ⟨400, none, none, db⟩
    | some _c =>
      let ircUsername := generateIrcUsername (u.name.getD u.sub) u.sub
      let hashedPassword := hashIrcPassword salt freshSecret
      let nickname := u.name.getD ircUsername
      let realname := u.name.getD ircUsername
      let res := upsertSojuUser db ircUsername hashedPassword nickname realname
      ⟨200, some ircUsername, some freshSecret, res.1⟩

end Provisioning

namespace AuthCallback

open Provisioning

/-- A row of the `irc_users` mapping table of the implementation plan. -/
structure IrcUserRec where
  id : Nat
  ircUsername : String
  ircPasswordHash : PasswordValue
  lastUsedAt : Nat
deriving DecidableEq, Repr

/-- The credential store the auth callback reads. -/
abbrev IrcUsersDb := List IrcUserRec

/-- `findIrcUserByUsername` of the implementation plan. -/
def findIrcUserByUsername (db : IrcUsersDb) (username : String) :
    Option IrcUserRec :=
  db.find? (fun u => u.ircUsername = username)

/-- Result of one `/api/irc-auth` call: the HTTP status, the store afterwards,
and how many password verifications were executed (the work done on the
request path, the observable timing of the handler). -/
structure AuthCallbackResult where
  status : Nat
  db : IrcUsersDb
  verifyCalls : Nat
deriving DecidableEq, Repr

/-- The `/api/irc-auth` handler of the implementation plan: unknown username
returns 403 at once (no verification executed); otherwise `verifyPassword`
runs once, a mismatch returns 403, a match updates `last_used_at` and
returns 200. -/
def ircAuthHandler (db : IrcUsersDb) (now : Nat) (username password : String) :
    AuthCallbackResult :=
  match findIrcUserByUsername db username with
  | none => ⟨403, db, 0⟩
  | some u =>
    if verifyPassword password u.ircPasswordHash then
      ⟨200, db.map (fun v => if v.id = u.id then { v with lastUsedAt := now } else v), 1⟩
    else ⟨403, db, 1⟩

end AuthCallback

namespace IframeIntegration

/-- Membership in a `notifyParent` output pins the envelope: type `irc-event`,
wildcard target origin. -/
lemma mem_notifyParent (b : Bool) (e p : String) (m : OutboundMessage)
    (hm : m ∈ notifyParent b e p) :
    m.type = "irc-event" ∧ m.targetOrigin = "*" := by
  unfold notifyParent at hm
  cases b
  · simp at hm
  · simp at hm
    subst hm
    exact ⟨rfl, rfl⟩

/-- The patched `console.log` only emits `notifyParent` envelopes. -/
lemma mem_monitoredLogMessage (b : Bool) (msg : String) (m : OutboundMessage)
    (hm : m ∈ monitoredLogMessage b msg) :
    m.type = "irc-event" ∧ m.targetOrigin = "*" := by
  unfold monitoredLogMessage at hm
  split at hm
  · exact mem_notifyParent _ _ _ _ hm
  · split at hm
    · exact mem_notifyParent _ _ _ _ hm
    · split at hm
      · exact mem_notifyParent _ _ _ _ hm
      · simp at hm

end IframeIntegration

namespace Provisioning

/-- A row update by id never changes the username column. -/
lemma applyUserUpdate_username (uid : Nat) (h : PasswordValue) (n r : String)
    (v : SojuUser) : (applyUserUpdate uid h n r v).username = v.username := by
  unfold applyUserUpdate
  split <;> rfl

/-- `find?` by username commutes with the row update, because the update
preserves usernames. -/
lemma find?_map_applyUserUpdate (uid : Nat) (h : PasswordValue)
    (n r uname : String) :
    ∀ (l : List SojuUser) (u : SojuUser),
      l.find? (fun v => v.username = uname) = some u →
      (l.map (applyUserUpdate uid h n r)).find? (fun v => v.username = uname)
        = some (applyUserUpdate uid h n r u) := by
  intro l
  induction l with
  | nil => intro u hu; simp at hu
  | cons a t ih =>
    intro u hu
    by_cases hA : a.username = uname
    · rw [List.find?_cons_of_pos _ (by simpa using hA)] at hu
      cases hu
      rw [List.map_cons, List.find?_cons_of_pos _ (by simp [applyUserUpdate_username, hA])]
    · rw [List.find?_cons_of_neg _ (by simpa using hA)] at hu
      rw [List.map_cons, List.find?_cons_of_neg _ (by simp [applyUserUpdate_username, hA])]
      exact ih u hu

/-- Appending one matching element to a list with no match makes `find?` hit it. -/
lemma find?_append_singleton {α : Type} (p : α → Bool) (x : α) (hx : p x = true) :
    ∀ (l : List α), l.find? p = none → (l ++ [x]).find? p = some x := by
  intro l
  induction l with
  | nil => intro _; simpa using List.find?_cons_of_pos ([] : List α) hx
  | cons a t ih =>
    intro hl
    cases hpa : p a
    · rw [List.find?_cons_of_neg _ (by simp [hpa])] at hl
      rw [List.cons_append, List.find?_cons_of_neg _ (by simp [hpa])]
      exact ih hl
    · rw [List.find?_cons_of_pos _ hpa] at hl
      simp at hl

/-- After either branch of the endpoint specification's upsert, looking the
username up yields a row whose password column holds exactly the hash the
upsert was given. -/
lemma findSojuUser_upsert (db : SojuDb) (uname : String) (h : PasswordValue)
    (n r : String) :
    ∃ u, findSojuUser (upsertSojuUser db uname h n r).1 uname = some u ∧
         u.username = uname ∧ u.password = h := by
  unfold upsertSojuUser
  split
  next u0 hf =>
    have hu0 : u0.username = uname := by
      have := List.find?_some hf
      simpa using this
    refine ⟨applyUserUpdate u0.id h n r u0, ?_, ?_, ?_⟩
    · exact find?_map_applyUserUpdate u0.id h n r uname db.users u0 hf
    · rw [applyUserUpdate_username]
      exact hu0
    · unfold applyUserUpdate
      simp
  next hf =>
    refine ⟨⟨db.nextId, uname, h, n, r⟩, ?_, rfl, rfl⟩
    exact find?_append_singleton _ _ (by simp) db.users hf

end Provisioning

namespace IframeIntegration

/-- C1: an inbound cross-document message whose origin is outside the
configured allow-list makes the message handler do nothing beyond the warning
log: it dispatches neither `handleIrcLogin` nor `handleThemeChange`, mutates
no DOM form field and submits no form, even when the message's `type` is
`irc-login`. -/
theorem unauthorized_origin_is_ignored (event : MessageEvent) (dom : DomState)
    (h : event.origin ∉ allowedOrigins) :
    messageListener event = [.warnUnauthorized event.origin] ∧
    (∀ d, HandlerStep.callIrcLogin d ∉ messageListener event) ∧
    (∀ d, HandlerStep.callThemeChange d ∉ messageListener event) ∧
    listenerDomActions event dom = [] := by
  have h1 : messageListener event = [.warnUnauthorized event.origin] := by
    unfold messageListener
    rw [if_neg h]
  refine ⟨h1, ?_, ?_, ?_⟩
  · intro d
    rw [h1]
    simp
  · intro d
    rw [h1]
    simp
  · unfold listenerDomActions
    rw [h1]
    simp

/-- Witness for C1: a message of type `irc-login` from `https://evil.example`,
with the login form fully present, produces only the warning and no DOM
action. -/
theorem unauthorized_origin_is_ignored_witness :
    (("https://evil.example" : String) ∉ allowedOrigins) ∧
    messageListener ⟨"https://evil.example",
        some ⟨some ("irc-login"), some ("alice"), some ("pw"), some ("Alice"), none⟩⟩ =
      [.warnUnauthorized ("https://evil.example")] ∧
    listenerDomActions ⟨"https://evil.example",
        some ⟨some ("irc-login"), some ("alice"), some ("pw"), some ("Alice"), none⟩⟩
      ⟨some (""), some (""), some (""), true⟩ = [] :=
  ⟨by decide,
   (unauthorized_origin_is_ignored
      ⟨"https://evil.example",
       some ⟨some ("irc-login"), some ("alice"), some ("pw"), some ("Alice"), none⟩⟩
      ⟨some (""), some (""), some (""), true⟩ (by decide)).1,
   (unauthorized_origin_is_ignored
      ⟨"https://evil.example",
       some ⟨some ("irc-login"), some ("alice"), some ("pw"), some ("Alice"), none⟩⟩
      ⟨some (""), some (""), some (""), true⟩ (by decide)).2.2.2⟩

/-- C9: loaded in a top-level window (`window.self === window.top`) the
integration script is a complete no-op: no message listener registered, no
console patch installed, no ready signal scheduled, nothing logged. -/
theorem top_window_noop :
    iframeIntegrationInit true = [] ∧
    InitEffect.registerMessageListener ∉ iframeIntegrationInit true ∧
    InitEffect.patchConsoleLog ∉ iframeIntegrationInit true ∧
    InitEffect.scheduleReadySignal ∉ iframeIntegrationInit true := by decide

/-- C10: every message the script posts to the parent window carries type
`irc-event` (with an eventType and data payload) and is sent with wildcard
target origin `*`, so delivery is not restricted to the inbound allow-list. -/
theorem outbound_messages_shape (hasParent : Bool) (urlInfo : String)
    (logs : List String) (m : OutboundMessage)
    (hm : m ∈ scriptOutbound hasParent urlInfo logs) :
    m.type = "irc-event" ∧ m.targetOrigin = "*" := by
  unfold scriptOutbound at hm
  rcases List.mem_append.mp hm with hA | hB
  · exact mem_notifyParent _ _ _ _ hA
  · rcases List.mem_flatten.mp hB with ⟨l, hl, hml⟩
    rcases List.mem_map.mp hl with ⟨msg, hmsg, rfl⟩
    exact mem_monitoredLogMessage _ _ _ hml

/-- Witness for C10: the ready signal posted on load has type `irc-event` and
wildcard target origin. -/
theorem outbound_messages_shape_witness :
    ((⟨"irc-event", "ready", "u", "*"⟩ : OutboundMessage) ∈
      scriptOutbound true ("u") []) ∧
    (⟨"irc-event", "ready", "u", "*"⟩ : OutboundMessage).type = "irc-event" ∧
    (⟨"irc-event", "ready", "u", "*"⟩ : OutboundMessage).targetOrigin = "*" :=
  ⟨by decide,
   (outbound_messages_shape true ("u") [] _ (by decide)).1,
   (outbound_messages_shape true ("u") [] _ (by decide)).2⟩

end IframeIntegration

namespace RedirectBuilder

/-- C2 counterexample: on the claim's input — channels `["general"]`, without
a leading `#` — `buildChatUrl` yields a URL with no `join=%23general`
substring; and `buildLoungeUrl` (which takes no nickname/real-name inputs at
all) yields a URL that carries no trace of the real name `Alice A.`. -/
theorem redirect_builder_claim_cex :
    IframeIntegration.containsSub
      (buildChatUrl ("https://chat.curia.network/") ("alice_42") ("s3cr3t")
        ("alice") ("Alice A.") ["general"])
      ("join=%23general") = false ∧
    IframeIntegration.containsSub
      (buildLoungeUrl ("https://chat.curia.network") ("alice_42") ("s3cr3t")
        ("general"))
      ("Alice") = false := by decide

/-- C2 (amended): `buildChatUrl` on the claim's input produces a URL with
URL-encoded `user=alice_42`, `al-password=s3cr3t`, the `autologin` and
`autoconnect` flags, `nick=alice`, form-url-encoded `realname=Alice+A.`, and
`join=general` — the builder never prepends `#`, so `join=%23general` appears
exactly when the caller already passes the channel as `#general`. -/
theorem buildChatUrl_alice_params :
    (IframeIntegration.containsSub
      (buildChatUrl ("https://chat.curia.network/") ("alice_42") ("s3cr3t")
        ("alice") ("Alice A.") ["general"]) ("user=alice_42") = true ∧
     IframeIntegration.containsSub
      (buildChatUrl ("https://chat.curia.network/") ("alice_42") ("s3cr3t")
        ("alice") ("Alice A.") ["general"]) ("al-password=s3cr3t") = true ∧
     IframeIntegration.containsSub
      (buildChatUrl ("https://chat.curia.network/") ("alice_42") ("s3cr3t")
        ("alice") ("Alice A.") ["general"]) ("autologin") = true ∧
     IframeIntegration.containsSub
      (buildChatUrl ("https://chat.curia.network/") ("alice_42") ("s3cr3t")
        ("alice") ("Alice A.") ["general"]) ("autoconnect") = true ∧
     IframeIntegration.containsSub
      (buildChatUrl ("https://chat.curia.network/") ("alice_42") ("s3cr3t")
        ("alice") ("Alice A.") ["general"]) ("nick=alice") = true ∧
     IframeIntegration.containsSub
      (buildChatUrl ("https://chat.curia.network/") ("alice_42") ("s3cr3t")
        ("alice") ("Alice A.") ["general"]) ("realname=Alice+A.") = true ∧
     IframeIntegration.containsSub
      (buildChatUrl ("https://chat.curia.network/") ("alice_42") ("s3cr3t")
        ("alice") ("Alice A.") ["general"]) ("join=general") = true) ∧
    IframeIntegration.containsSub
      (buildChatUrl ("https://chat.curia.network/") ("alice_42") ("s3cr3t")
        ("alice") ("Alice A.") ["#general"]) ("join=%23general") = true := by decide

end RedirectBuilder

namespace Provisioning

/-- C3: two successive provisioning calls for the same external user (the
second starting from the first call's store state) derive the same
bouncer username both times and return the two freshly generated secrets; the
second call's hash supersedes the first, so after it the stored credential
verifies only against the second secret and `verify` on the first returns
false.  The hypothesis `s₁ ≠ s₂` states that the two entropy draws of
`generateSecurePassword()` differ. -/
theorem provision_twice_stable_username_rotates_secret
    (db : SojuDb) (u : AuthUser) (c : String) (s₁ s₂ : String)
    (salt₁ salt₂ : Nat) (hs : s₁ ≠ s₂) :
    let r₁ := provisionIrcUserHandler db (some u) (some c) s₁ salt₁
    let r₂ := provisionIrcUserHandler r₁.db (some u) (some c) s₂ salt₂
    r₁.ircUsername = some (generateIrcUsername ((u.name).getD u.sub) u.sub) ∧
    r₂.ircUsername = some (generateIrcUsername ((u.name).getD u.sub) u.sub) ∧
    r₁.ircPassword = some s₁ ∧
    r₂.ircPassword = some s₂ ∧
    r₁.ircPassword ≠ r₂.ircPassword ∧
    ∃ w, findSojuUser r₂.db (generateIrcUsername ((u.name).getD u.sub) u.sub)
           = some w ∧
         verifyPassword s₂ w.password = true ∧
         verifyPassword s₁ w.password = false := by
  intro r₁ r₂
  refine ⟨rfl, rfl, rfl, rfl,
    fun hEq => hs (Option.some.inj (show some s₁ = some s₂ from hEq)), ?_⟩
  obtain ⟨w, hw, hwu, hwp⟩ :=
    findSojuUser_upsert r₁.db (generateIrcUsername ((u.name).getD u.sub) u.sub)
      (PasswordValue.hashed salt₂ s₂)
      ((u.name).getD (generateIrcUsername ((u.name).getD u.sub) u.sub))
      ((u.name).getD (generateIrcUsername ((u.name).getD u.sub) u.sub))
  refine ⟨w, hw, ?_, ?_⟩
  · rw [hwp]
    simp [verifyPassword]
  · rw [hwp]
    simp [verifyPassword, hs]

/-- Witness for C3: a fresh user provisioned twice, with distinct generated
secrets, keeps the same derived username and the two returned plaintext
secrets differ. -/
theorem provision_twice_stable_username_rotates_secret_witness :
    (("secretOne" : String) ≠ "secretTwo") ∧
    (provisionIrcUserHandler
        (provisionIrcUserHandler ⟨[], [], 1⟩ (some ⟨"aaaa0001", some ("Alice")⟩)
          (some ("c")) ("secretOne") 3).db
        (some ⟨"aaaa0001", some ("Alice")⟩) (some ("c")) ("secretTwo") 4).ircUsername =
      some (generateIrcUsername
        (((⟨"aaaa0001", some ("Alice")⟩ : AuthUser).name).getD ("aaaa0001"))
        ("aaaa0001")) ∧
    (provisionIrcUserHandler ⟨[], [], 1⟩ (some ⟨"aaaa0001", some ("Alice")⟩)
        (some ("c")) ("secretOne") 3).ircPassword ≠
      (provisionIrcUserHandler
        (provisionIrcUserHandler ⟨[], [], 1⟩ (some ⟨"aaaa0001", some ("Alice")⟩)
          (some ("c")) ("secretOne") 3).db
        (some ⟨"aaaa0001", some ("Alice")⟩) (some ("c")) ("secretTwo") 4).ircPassword :=
  ⟨by decide,
   (provision_twice_stable_username_rotates_secret ⟨[], [], 1⟩
      ⟨"aaaa0001", some ("Alice")⟩ ("c") ("secretOne") ("secretTwo") 3 4
      (by decide)).2.1,
   (provision_twice_stable_username_rotates_secret ⟨[], [], 1⟩
      ⟨"aaaa0001", some ("Alice")⟩ ("c") ("secretOne") ("secretTwo") 3 4
      (by decide)).2.2.2.2.1⟩

/-- C6: a provisioning request with no authenticated caller identity is
answered with the 401 result, returns no credentials, and leaves the store
exactly as it was — the handler never proceeds without an upstream caller. -/
theorem unauthenticated_provision_rejected (db : SojuDb)
    (communityId : Option String) (freshSecret : String) (salt : Nat) :
    provisionIrcUserHandler db none communityId freshSecret salt =
      ⟨401, none, none, db⟩ := rfl

/-- C7: the integration-points draft of `upsertSojuUser` persists the raw
generated secret in the password column — not a salted hash — in both the
create branch (first call) and the update branch (second call), contradicting
the repository's own requirement to hash passwords before storage. -/
theorem draft_upsert_stores_plaintext :
    (∃ w, findSojuUser
        (upsertSojuUserDraft ⟨[], [], 1⟩ ("bob_0001") ("s3cr3t") ("Bob") ("Bob")).1
        ("bob_0001") = some w ∧
      w.password = .plain ("s3cr3t") ∧ w.password.isHashed = false) ∧
    (∃ w, findSojuUser
        (upsertSojuUserDraft
          (upsertSojuUserDraft ⟨[], [], 1⟩ ("bob_0001") ("s3cr3t") ("Bob") ("Bob")).1
          ("bob_0001") ("n3wSecret") ("Bob") ("Bob")).1
        ("bob_0001") = some w ∧
      w.password = .plain ("n3wSecret") ∧ w.password.isHashed = false) := by decide

/-- C8 counterexample: the external users `aaaa0001` and `bbbb0001`, both
named Bob, derive the same bouncer username `bob_0001`; provisioning the
second after the first succeeds with status 200 and the very same username —
no new suffix is tried, no `ProvisioningFailed` is raised — and the single
existing row is silently rotated to the second caller's secret. -/
theorem collision_no_retry_cex :
    generateIrcUsername ("Bob") ("aaaa0001") = "bob_0001" ∧
    generateIrcUsername ("Bob") ("bbbb0001") = "bob_0001" ∧
    (provisionIrcUserHandler
        (provisionIrcUserHandler ⟨[], [], 1⟩ (some ⟨"aaaa0001", some ("Bob")⟩)
          (some ("c")) ("secretOne") 1).db
        (some ⟨"bbbb0001", some ("Bob")⟩) (some ("c")) ("secretTwo") 2).status = 200 ∧
    (provisionIrcUserHandler
        (provisionIrcUserHandler ⟨[], [], 1⟩ (some ⟨"aaaa0001", some ("Bob")⟩)
          (some ("c")) ("secretOne") 1).db
        (some ⟨"bbbb0001", some ("Bob")⟩) (some ("c")) ("secretTwo") 2).ircUsername =
      some ("bob_0001") ∧
    ((provisionIrcUserHandler
        (provisionIrcUserHandler ⟨[], [], 1⟩ (some ⟨"aaaa0001", some ("Bob")⟩)
          (some ("c")) ("secretOne") 1).db
        (some ⟨"bbbb0001", some ("Bob")⟩) (some ("c")) ("secretTwo") 2).db).users.length
      = 1 ∧
    (∃ w, findSojuUser
        (provisionIrcUserHandler
          (provisionIrcUserHandler ⟨[], [], 1⟩ (some ⟨"aaaa0001", some ("Bob")⟩)
            (some ("c")) ("secretOne") 1).db
          (some ⟨"bbbb0001", some ("Bob")⟩) (some ("c")) ("secretTwo") 2).db
        ("bob_0001") = some w ∧
      verifyPassword ("secretOne") w.password = false ∧
      verifyPassword ("secretTwo") w.password = true) := by decide

/-- C8 (amended): when the derived bouncer username collides with an existing
row, the upsert performs no retry and derives no new suffix: it updates the
existing row in place (the user count is unchanged) and the handler returns
success with the colliding username. -/
theorem collision_updates_existing_row (db : SojuDb) (u : AuthUser)
    (c s : String) (salt : Nat) (w : SojuUser)
    (hw : findSojuUser db (generateIrcUsername ((u.name).getD u.sub) u.sub)
            = some w) :
    (provisionIrcUserHandler db (some u) (some c) s salt).status = 200 ∧
    (provisionIrcUserHandler db (some u) (some c) s salt).ircUsername =
      some (generateIrcUsername ((u.name).getD u.sub) u.sub) ∧
    ((provisionIrcUserHandler db (some u) (some c) s salt).db).users.length =
      db.users.length := by
  refine ⟨rfl, rfl, ?_⟩
  show ((upsertSojuUser db (generateIrcUsername ((u.name).getD u.sub) u.sub)
          (hashIrcPassword salt s)
          ((u.name).getD (generateIrcUsername ((u.name).getD u.sub) u.sub))
          ((u.name).getD (generateIrcUsername ((u.name).getD u.sub) u.sub))).1).users.length
        = db.users.length
  unfold upsertSojuUser
  rw [hw]
  simp

/-- Witness for C8 (amended): with `bob_0001` already present, provisioning
the colliding user `bbbb0001` finds that row and the handler returns 200. -/
theorem collision_updates_existing_row_witness :
    (findSojuUser ⟨[⟨1, "bob_0001", .hashed 0 ("old"), "Bob", "Bob"⟩], [], 2⟩
        (generateIrcUsername (((some ("Bob")) : Option String).getD ("bbbb0001"))
          ("bbbb0001")) =
      some ⟨1, "bob_0001", .hashed 0 ("old"), "Bob", "Bob"⟩) ∧
    (provisionIrcUserHandler
        ⟨[⟨1, "bob_0001", .hashed 0 ("old"), "Bob", "Bob"⟩], [], 2⟩
        (some ⟨"bbbb0001", some ("Bob")⟩) (some ("c")) ("sec") 7).status = 200 :=
  ⟨by decide,
   (collision_updates_existing_row
      ⟨[⟨1, "bob_0001", .hashed 0 ("old"), "Bob", "Bob"⟩], [], 2⟩
      ⟨"bbbb0001", some ("Bob")⟩ ("c") ("sec") 7
      ⟨1, "bob_0001", .hashed 0 ("old"), "Bob", "Bob"⟩ (by decide)).1⟩

end Provisioning

namespace AuthCallback

open Provisioning

/-- C4: the auth callback returns the 200 result exactly when the submitted
secret's hash matches the hash currently stored for that username (the
username exists and `verifyPassword` succeeds), and the 403 result in every
other case — no third outcome exists. -/
theorem ircAuth_success_iff_hash_matches (db : IrcUsersDb) (now : Nat)
    (username password : String) :
    ((ircAuthHandler db now username password).status = 200 ↔
      ∃ u, findIrcUserByUsername db username = some u ∧
           verifyPassword password u.ircPasswordHash = true) ∧
    ((ircAuthHandler db now username password).status = 200 ∨
     (ircAuthHandler db now username password).status = 403) := by
  unfold ircAuthHandler
  cases hf : findIrcUserByUsername db username with
  | none => simp [hf]
  | some u =>
    cases hv : Provisioning.verifyPassword password u.ircPasswordHash with
    | true => simp [hf, hv]
    | false => simp [hf, hv]

/-- C5 evidence: against a store holding only `alice`, the handler answers an
unknown username (`ghost`) with 403 after zero password verifications, while
a known username with a wrong secret costs one verification — the two failure
paths do not execute the same credential-verification work, and no dummy-hash
verification happens for absent users. -/
theorem unknown_user_skips_verification :
    (ircAuthHandler [⟨1, "alice", .hashed 0 ("correct"), 0⟩] 5
      ("ghost") ("whatever")).verifyCalls = 0 ∧
    (ircAuthHandler [⟨1, "alice", .hashed 0 ("correct"), 0⟩] 5
      ("ghost") ("whatever")).status = 403 ∧
    (ircAuthHandler [⟨1, "alice", .hashed 0 ("correct"), 0⟩] 5
      ("alice") ("wrong")).verifyCalls = 1 ∧
    (ircAuthHandler [⟨1, "alice", .hashed 0 ("correct"), 0⟩] 5
      ("alice") ("wrong")).status = 403 := by decide

end AuthCallback
